import Mathlib

/-!
Shallow embedding of the core delivery pipeline of the
`webhook-delivery-system` repository (Go), together with theorems settling
the specification claims.

Conventions of the embedding:
* machine integers are `Int`/`Nat` (Go `int`/`int64` never overflow in the
  ranges exercised here);
* the Redis hash holding a circuit-breaker record is a record of three
  optional fields (a missing key is the all-`none` record, mirroring
  `HGetAll` returning an empty map);
* the rate-limiter sorted set is an association list `List (String × Int)`
  of members and scores;
* wall-clock reads (`time.Now()` in its various units) are explicit
  parameters; the retry jitter `rand.IntN(1000)` is an explicit parameter
  constrained to `< 1000`;
* the outcome of the HTTP POST is an explicit oracle parameter
  (`HttpOutcome`), since the network is outside the program.
-/

namespace Webhook

/-! ## Circuit breaker (`internal/engine/circuitbreaker.go`) -/

/-- The Redis hash `cb:<subscriberID>` as read by `HGetAll`: three optional
fields.  A missing key is the record with all fields `none` (Go sees
`len(data) == 0`).  `failures` and `last_failed_at` are stored as decimal
strings in Redis; since the program only ever writes integer values to
them we keep them as `Int` directly (`strconv` parse failure on a missing
field yields the zero value, i.e. `getD 0`). -/
structure CBHash where
  state : Option String
  failures : Option Int
  lastFailedAt : Option Int
  deriving Repr, DecidableEq

/-- `len(data) == 0` in Go: the key does not exist. -/
def CBHash.isEmptyHash (h : CBHash) : Bool :=
  h.state.isNone && h.failures.isNone && h.lastFailedAt.isNone

/-- `data["state"]` (empty string when the field is missing). -/
def CBHash.stateVal (h : CBHash) : String := h.state.getD ""

/-- `strconv.Atoi(data["failures"])` with the error ignored. -/
def CBHash.failuresVal (h : CBHash) : Int := h.failures.getD 0

/-- `strconv.ParseInt(data["last_failed_at"], 10, 64)` with the error
ignored. -/
def CBHash.lastFailedAtVal (h : CBHash) : Int := h.lastFailedAt.getD 0

/-- The hash of a key that does not exist. -/
def CBHash.emptyHash : CBHash := ⟨none, none, none⟩

/-- `failureThreshold` in `NewCircuitBreaker`. -/
def failureThreshold : Int := 5

/-- `cooldownPeriod.Seconds()` in `NewCircuitBreaker`. -/
def cooldownSeconds : Int := 30

/-- Result of `CircuitBreaker.AllowRequest`: the (possibly mutated) hash,
the state string returned, and the admit boolean. -/
structure AllowResult where
  hash : CBHash
  stateName : String
  allowed : Bool
  deriving Repr, DecidableEq

/-- `CircuitBreaker.AllowRequest` (circuitbreaker.go lines 55-89).
`now` is `time.Now().Unix()` in seconds. -/
def AllowRequest (now : Int) (h : CBHash) : AllowResult :=
  if h.isEmptyHash then
    -- no state yet: circuit is closed (default)
    ⟨h, "closed", true⟩
  else
    match h.stateVal with
    | "open" =>
      if now - h.lastFailedAtVal ≥ cooldownSeconds then
        -- transition to half-open: HSet writes only the "state" field
        ⟨{ h with state := some "half-open" }, "half-open", true⟩
      else
        ⟨h, "open", false⟩
    | "half-open" => ⟨h, "half-open", true⟩
    | _ => ⟨h, "closed", true⟩

/-- `CircuitBreaker.RecordSuccess` (circuitbreaker.go lines 92-107):
`HSet state=closed failures=0`; `last_failed_at` is not touched. -/
def RecordSuccess (h : CBHash) : CBHash :=
  { h with state := some "closed", failures := some 0 }

/-- `CircuitBreaker.RecordFailure` (circuitbreaker.go lines 110-144):
`HIncrBy failures 1`, `HSet last_failed_at now`, then set the state per
the prior state and the new counter. -/
def RecordFailure (now : Int) (h : CBHash) : CBHash :=
  let f := h.failuresVal + 1
  let h' : CBHash := { h with failures := some f, lastFailedAt := some now }
  let st := h'.stateVal
  if st = "half-open" then { h' with state := some "open" }
  else if f ≥ failureThreshold then { h' with state := some "open" }
  else if st = "" then { h' with state := some "closed" }
  else h'

/-! ## Rate limiter (`ratelimiter.go`, `src/unnamed/part_005`) -/

/-- The per-subscriber sorted set `rl:<subscriberID>`: members with their
millisecond scores.  Members are unique (ZSET semantics are maintained by
`zadd`). -/
abbrev ZSet := List (String × Int)

/-- `ZADD key score member`: update the score if the member exists,
append otherwise. -/
def zadd (s : ZSet) (member : String) (score : Int) : ZSet :=
  if (List.any s fun p => p.1 == member) then
    List.map (fun p => if p.1 == member then (member, score) else p) s
  else
    s ++ [(member, score)]

/-- `ZREMRANGEBYSCORE key -inf cutoff` keeps exactly the members with
score strictly greater than `cutoff` (the range bound is inclusive). -/
def zremrangebyscoreLe (s : ZSet) (cutoff : Int) : ZSet :=
  List.filter (fun p => decide (cutoff < p.2)) s

/-- Result of one run of the sliding-window Lua script: the new sorted
set, the TTL set on the key (seconds) if any, and the integer reply. -/
structure ScriptResult where
  zset : ZSet
  ttl : Option Int
  ret : Int
  deriving DecidableEq

/-- The Lua script `slidingWindowScript`:
remove members with score ≤ now - window, count the rest, and if the
count is under the limit add `member` at score `now`, set
`EXPIRE key (window / 1000 + 1)` and return 1; else return 0. -/
def slidingWindowScript (s : ZSet) (now window limit : Int)
    (member : String) : ScriptResult :=
  let kept := zremrangebyscoreLe s (now - window)
  if (kept.length : Int) < limit then
    ⟨zadd kept member now, some (window / 1000 + 1), 1⟩
  else
    ⟨kept, none, 0⟩

/-- Result of `RateLimiter.Allow`: the new sorted set, the admit boolean,
and whether any KV operation was performed at all. -/
structure RLResult where
  zset : ZSet
  allowed : Bool
  kvTouched : Bool
  deriving DecidableEq

/-- `RateLimiter.Allow`: `limit <= 0` bypasses the limiter entirely
(no Redis call); otherwise the script runs with `window = 1000` ms and
the verdict is its integer reply.  The Redis-error fail-open branch is
outside the sequential model. -/
def RLAllow (s : ZSet) (limit : Int) (nowMs : Int) (member : String) :
    RLResult :=
  if limit ≤ 0 then ⟨s, true, false⟩
  else
    let r := slidingWindowScript s nowMs 1000 limit member
    ⟨r.zset, r.ret == 1, true⟩

/-! ## Delivery jobs and fan-out (`engine` package, `src/unnamed/part_004`)

The `DeliveryJob` struct carries `RateLimitPerSecond` (the worker reads
`job.RateLimitPerSecond` and the engine round-trip test sets it); the
composite literal in `FanOut` does not mention that field, so Go fills it
with the zero value `0`.  Payloads are byte lists (`json.RawMessage`). -/

structure DeliveryJob where
  eventID : String
  subscriberID : String
  endpointURL : String
  payload : List Nat
  secretKey : String
  eventType : String
  attempt : Nat
  maxRetries : Nat
  rateLimitPerSecond : Int
  deriving Repr, DecidableEq

/-- The fields of `domain.Subscriber` consumed by the pipeline. -/
structure Subscriber where
  id : String
  name : String
  endpointURL : String
  secretKey : String
  isActive : Bool
  rateLimitPerSecond : Int
  deriving Repr, DecidableEq

/-- The fields of a subscription row consumed by matching. -/
structure Subscription where
  id : String
  subscriberID : String
  eventTypePattern : String
  isActive : Bool
  deriving Repr, DecidableEq

/-- The fields of `domain.Event` consumed by the pipeline. -/
structure Event where
  id : String
  eventType : String
  payload : List Nat
  deriving Repr, DecidableEq

/-- The composite literal inside `FanOut`'s loop.  `RateLimitPerSecond`
is absent from the literal, hence the Go zero value `0`. -/
def fanOutJob (event : Event) (sub : Subscriber) : DeliveryJob :=
  { eventID := event.id
    subscriberID := sub.id
    endpointURL := sub.endpointURL
    payload := event.payload
    secretKey := sub.secretKey
    eventType := event.eventType
    attempt := 1
    maxRetries := 5
    rateLimitPerSecond := 0 }

/-- `FanOutEngine.FanOut` after `FindMatchingSubscribers` returned
`subscribers`: one `ZADD` per subscriber, pipelined, all with
`score = time.Now().UnixMicro()`; the return value is
`len(subscribers)`.  (`json.Marshal` of a `DeliveryJob` cannot fail, so
the `continue` branch is dead.) -/
def FanOut (subscribers : List Subscriber) (event : Event)
    (nowMicro : Int) : List (DeliveryJob × Int) × Nat :=
  (subscribers.map fun sub => (fanOutJob event sub, nowMicro),
   subscribers.length)

/-! ## Deliverer (`internal/worker/deliverer.go`) -/

/-- One row of `delivery_attempts` as built by `recordAttempt`
(the wall-clock `response_time_ms` column is not modelled). -/
structure AttemptRecord where
  eventID : String
  subscriberID : String
  attemptNumber : Nat
  status : String
  httpStatusCode : Option Int
  responseBody : String
  errorMessage : String
  nextRetryAt : Option Int
  deriving Repr, DecidableEq

/-- One row of the dead-letter table as built by `moveToDLQ`. -/
structure DeadLetterRecord where
  eventID : String
  subscriberID : String
  totalAttempts : Nat
  lastHTTPStatus : Option Int
  lastError : String
  deriving Repr, DecidableEq

/-- `Deliverer.recordAttempt` (deliverer.go lines 283-313): the stored
status is `"failed"` iff `errMsg != ""` or the status code is present and
`≥ 400`; otherwise `"success"`. -/
def recordAttempt (job : DeliveryJob) (statusCode : Option Int)
    (responseBody errMsg : String) (nextRetryAt : Option Int) :
    AttemptRecord :=
  let failed : Bool :=
    (errMsg != "") || (match statusCode with
                       | some c => decide (c ≥ 400)
                       | none => false)
  let status := if failed then "failed" else "success"
  { eventID := job.eventID
    subscriberID := job.subscriberID
    attemptNumber := job.attempt
    status := status
    httpStatusCode := statusCode
    responseBody := responseBody
    errorMessage := errMsg
    nextRetryAt := nextRetryAt }

/-- `Deliverer.scheduleRetry` (deliverer.go lines 224-258).
`nowMicro` is `time.Now().UnixMicro()`; `jitterMs` is `rand.IntN(1000)`.
`math.Pow(2, attempt)` is exact for the attempt counts reachable here
(`attempt < maxRetries`), so the base delay is `2^attempt` seconds.
Returns the re-enqueued job and its queue score (`nextRetry.UnixMicro()`,
also used as the recorded `next_retry_at`). -/
def scheduleRetry (job : DeliveryJob) (nowMicro : Int) (jitterMs : Nat) :
    DeliveryJob × Int :=
  let delayMicros : Int := (2 ^ job.attempt : Nat) * 1000000 + jitterMs * 1000
  let retryJob : DeliveryJob :=
    { eventID := job.eventID
      subscriberID := job.subscriberID
      endpointURL := job.endpointURL
      payload := job.payload
      secretKey := job.secretKey
      eventType := job.eventType
      attempt := job.attempt + 1
      maxRetries := job.maxRetries
      rateLimitPerSecond := job.rateLimitPerSecond }
  (retryJob, nowMicro + delayMicros)

/-- `Deliverer.moveToDLQ` (deliverer.go lines 261-280). -/
def moveToDLQ (job : DeliveryJob) (statusCode : Option Int)
    (errMsg : String) : DeadLetterRecord :=
  { eventID := job.eventID
    subscriberID := job.subscriberID
    totalAttempts := job.attempt
    lastHTTPStatus := statusCode
    lastError := errMsg }

/-- The externally visible effects of `handleFailure`: the attempt row,
the dead-letter row if any, and the job/score enqueued if any. -/
structure FailureEffects where
  attemptRow : AttemptRecord
  dlqRow : Option DeadLetterRecord
  enqueued : Option (DeliveryJob × Int)
  deriving Repr, DecidableEq

/-- `Deliverer.handleFailure` (deliverer.go lines 163-221): retry while
`attempt < maxRetries`, else terminal attempt plus dead-letter row. -/
def handleFailure (job : DeliveryJob) (nowMicro : Int) (jitterMs : Nat)
    (statusCode : Option Int) (responseBody errMsg : String) :
    FailureEffects :=
  if job.attempt < job.maxRetries then
    let (retryJob, score) := scheduleRetry job nowMicro jitterMs
    { attemptRow := recordAttempt job statusCode responseBody errMsg (some score)
      dlqRow := none
      enqueued := some (retryJob, score) }
  else
    { attemptRow := recordAttempt job statusCode responseBody errMsg none
      dlqRow := some (moveToDLQ job statusCode errMsg)
      enqueued := none }

/-! ## Subscriber matching (`FindMatchingSubscribers`, config.go lines 140-160)

The SQL `WHERE` clause is
`sub.event_type = $1 OR sub.event_type = '*' OR
 (sub.event_type LIKE '%.*' AND $1 LIKE REPLACE(sub.event_type, '.*', '.%'))`.
We embed PostgreSQL `LIKE` over character lists: `%` matches any
sequence, `_` any single character, backslash escapes the next pattern
character (the PostgreSQL default escape); a pattern ending in a lone
backslash raises an error in PostgreSQL — the row would make the whole
query fail, we model that pattern as matching nothing. -/

/-- PostgreSQL `text LIKE pattern` (default escape), pattern first:
`%` matches any sequence (realised structurally by matching the rest of
the pattern against every suffix of the text), `_` any one character,
`\` escapes the next pattern character, every other character is
literal. -/
def likeMatch : List Char → List Char → Bool
  | [], t => t.isEmpty
  | c :: p, t =>
    if c = '%' then
      t.tails.any fun suffix => likeMatch p suffix
    else if c = '_' then
      (match t with
       | [] => false
       | _ :: t' => likeMatch p t')
    else if c = '\\' then
      (match p with
       | [] => false
       | c' :: p' =>
         match t with
         | [] => false
         | d :: t' => c' == d && likeMatch p' t')
    else
      (match t with
       | [] => false
       | d :: t' => c == d && likeMatch p t')

/-- SQL `REPLACE(s, '.*', '.%')`: replace every occurrence of `.*`,
scanning left to right. -/
def replaceDotStar : List Char → List Char
  | [] => []
  | [c] => [c]
  | c :: d :: rest =>
    if c = '.' ∧ d = '*' then '.' :: '%' :: replaceDotStar rest
    else c :: replaceDotStar (d :: rest)

/-- The SQL matching condition on one subscription row, as a predicate
on (pattern, event type). -/
def sqlMatch (pattern eventType : List Char) : Bool :=
  pattern == eventType || pattern == ['*'] ||
    (likeMatch ['%', '.', '*'] pattern &&
     likeMatch (replaceDotStar pattern) eventType)

/-- `PostgresStore.FindMatchingSubscribers` as a query over in-memory
rows: the active subscribers having at least one active owned
subscription whose pattern matches the event type (`SELECT DISTINCT`
over the join collapses to a filter over subscribers). -/
def FindMatchingSubscribers (subscribers : List Subscriber)
    (subscriptions : List Subscription) (eventType : String) :
    List Subscriber :=
  subscribers.filter fun s =>
    s.isActive &&
      subscriptions.any fun t =>
        t.subscriberID == s.id && t.isActive &&
          sqlMatch t.eventTypePattern.data eventType.data

/-- Modelled from the spec's words, for comparison with `sqlMatch`: a
literal pattern matches by string equality, `*` matches everything, and
a pattern ending in `.*` matches any event type beginning with the
pattern's prefix followed by a dot. -/
def specMatch (pattern eventType : List Char) : Bool :=
  pattern == eventType || pattern == ['*'] ||
    (List.isSuffixOf ['.', '*'] pattern &&
     List.isPrefixOf (pattern.dropLast.dropLast ++ ['.']) eventType)

/-- No SQL LIKE metacharacter (`%`, `_`, backslash) occurs in the list. -/
def plainChars (l : List Char) : Bool :=
  l.all fun c => !(c == '%' || c == '_' || c == '\\')

/-- The substring `.*` occurs somewhere in the list. -/
def hasDotStar : List Char → Bool
  | [] => false
  | [_] => false
  | c :: d :: rest =>
    if c = '.' ∧ d = '*' then true else hasDotStar (d :: rest)

/-! ## SHA-256 and HMAC (`computeHMAC`, deliverer.go lines 316-320)

The Go code signs with `hmac.New(sha256.New, []byte(secret))` over the
payload bytes and hex-encodes the digest.  We embed FIPS 180-4 SHA-256
and RFC 2104 HMAC over byte lists (`Nat` values `< 256`), with 32-bit
words as `Nat` reduced modulo `2^32`. -/

/-- `2^32`. -/
def m32 : Nat := 4294967296

/-- Right-rotation of a 32-bit word. -/
def rotr (n x : Nat) : Nat :=
  ((x >>> n) ||| (x <<< (32 - n))) % m32

def sigmaSmall0 (x : Nat) : Nat := rotr 7 x ^^^ rotr 18 x ^^^ (x >>> 3)
def sigmaSmall1 (x : Nat) : Nat := rotr 17 x ^^^ rotr 19 x ^^^ (x >>> 10)
def sigmaBig0 (x : Nat) : Nat := rotr 2 x ^^^ rotr 13 x ^^^ rotr 22 x
def sigmaBig1 (x : Nat) : Nat := rotr 6 x ^^^ rotr 11 x ^^^ rotr 25 x
def chFn (e f g : Nat) : Nat := (e &&& f) ^^^ ((e ^^^ 4294967295) &&& g)
def majFn (a b c : Nat) : Nat := (a &&& b) ^^^ (a &&& c) ^^^ (b &&& c)

/-- The 64 SHA-256 round constants (FIPS 180-4 §4.2.2), written in
decimal. -/
def sha256K : List Nat :=
  [1116352408, 1899447441, 3049323471, 3921009573,
   961987163, 1508970993, 2453635748, 2870763221,
   3624381080, 310598401, 607225278, 1426881987,
   1925078388, 2162078206, 2614888103, 3248222580,
   3835390401, 4022224774, 264347078, 604807628,
   770255983, 1249150122, 1555081692, 1996064986,
   2554220882, 2821834349, 2952996808, 3210313671,
   3336571891, 3584528711, 113926993, 338241895,
   666307205, 773529912, 1294757372, 1396182291,
   1695183700, 1986661051, 2177026350, 2456956037,
   2730485921, 2820302411, 3259730800, 3345764771,
   3516065817, 3600352804, 4094571909, 275423344,
   430227734, 506948616, 659060556, 883997877,
   958139571, 1322822218, 1537002063, 1747873779,
   1955562222, 2024104815, 2227730452, 2361852424,
   2428436474, 2756734187, 3204031479, 3329325298]

/-- The eight working variables of the compression function. -/
structure H8 where
  a : Nat
  b : Nat
  c : Nat
  d : Nat
  e : Nat
  f : Nat
  g : Nat
  h : Nat
  deriving Repr, DecidableEq

/-- The SHA-256 initial hash value (FIPS 180-4 §5.3.3), in decimal. -/
def sha256H0 : H8 :=
  ⟨1779033703, 3144134277, 1013904242, 2773480762,
   1359893119, 2600822924, 528734635, 1541459225⟩

/-- Big-endian serialization of `n` into `k` bytes. -/
def toBytesBE : Nat → Nat → List Nat
  | 0, _ => []
  | k + 1, n => (n >>> (8 * k)) % 256 :: toBytesBE k n

/-- Reassemble consecutive groups of 4 bytes into big-endian words. -/
def bytesToWords : List Nat → List Nat
  | b0 :: b1 :: b2 :: b3 :: rest =>
    (b0 <<< 24 ||| b1 <<< 16 ||| b2 <<< 8 ||| b3) :: bytesToWords rest
  | _ => []

/-- FIPS 180-4 padding: append `0x80`, zeros to 56 mod 64, then the
64-bit big-endian bit length. -/
def sha256Pad (msg : List Nat) : List Nat :=
  let l := msg.length
  let zeros := (119 - l % 64) % 64
  msg ++ [0x80] ++ List.replicate zeros 0 ++ toBytesBE 8 (8 * l)

/-- Extend the 16 message words by `fuel` further schedule words. -/
def extendSchedule : Nat → List Nat → List Nat
  | 0, w => w
  | k + 1, w =>
    let t := w.length
    let next := (sigmaSmall1 (w.getD (t - 2) 0) + w.getD (t - 7) 0 +
                 sigmaSmall0 (w.getD (t - 15) 0) + w.getD (t - 16) 0) % m32
    extendSchedule k (w ++ [next])

/-- One round of the compression function. -/
def sha256Round (s : H8) (kw : Nat × Nat) : H8 :=
  let t1 := (s.h + sigmaBig1 s.e + chFn s.e s.f s.g + kw.1 + kw.2) % m32
  let t2 := (sigmaBig0 s.a + majFn s.a s.b s.c) % m32
  ⟨(t1 + t2) % m32, s.a, s.b, s.c, (s.d + t1) % m32, s.e, s.f, s.g⟩

/-- Compress one 64-byte block into the running hash. -/
def sha256Compress (h0 : H8) (block : List Nat) : H8 :=
  let w := extendSchedule 48 (bytesToWords block)
  let s := (sha256K.zip w).foldl sha256Round h0
  ⟨(h0.a + s.a) % m32, (h0.b + s.b) % m32, (h0.c + s.c) % m32,
   (h0.d + s.d) % m32, (h0.e + s.e) % m32, (h0.f + s.f) % m32,
   (h0.g + s.g) % m32, (h0.h + s.h) % m32⟩

/-- Split into 64-byte blocks (`fuel` bounds the recursion; callers pass
the list length). -/
def chunks64 : Nat → List Nat → List (List Nat)
  | 0, _ => []
  | _, [] => []
  | fuel + 1, l => l.take 64 :: chunks64 fuel (l.drop 64)

/-- SHA-256 of a byte list, as a 32-byte list. -/
def sha256 (msg : List Nat) : List Nat :=
  let padded := sha256Pad msg
  let final := (chunks64 padded.length padded).foldl sha256Compress sha256H0
  toBytesBE 4 final.a ++ toBytesBE 4 final.b ++ toBytesBE 4 final.c ++
  toBytesBE 4 final.d ++ toBytesBE 4 final.e ++ toBytesBE 4 final.f ++
  toBytesBE 4 final.g ++ toBytesBE 4 final.h

/-- RFC 2104 HMAC-SHA256 (block size 64), as in Go's `crypto/hmac`. -/
def hmacSha256 (key msg : List Nat) : List Nat :=
  let key' := if 64 < key.length then sha256 key else key
  let kpad := key' ++ List.replicate (64 - key'.length) 0
  let inner := sha256 ((kpad.map fun b => b ^^^ 0x36) ++ msg)
  sha256 ((kpad.map fun b => b ^^^ 0x5c) ++ inner)

/-- Lowercase hex digit. -/
def hexDigit (n : Nat) : Char :=
  "0123456789abcdef".data.getD n '?'

/-- `hex.EncodeToString`: lowercase hexadecimal of a byte list. -/
def hexEncode (bytes : List Nat) : String :=
  ⟨(bytes.map fun b => [hexDigit (b / 16 % 16), hexDigit (b % 16)]).flatten⟩

/-- UTF-8 encoding of one character (Go `[]byte(string)` semantics). -/
def utf8Bytes (c : Char) : List Nat :=
  let n := c.toNat
  if n < 0x80 then [n]
  else if n < 0x800 then
    [0xC0 ||| (n >>> 6), 0x80 ||| (n &&& 0x3F)]
  else if n < 0x10000 then
    [0xE0 ||| (n >>> 12), 0x80 ||| ((n >>> 6) &&& 0x3F),
     0x80 ||| (n &&& 0x3F)]
  else
    [0xF0 ||| (n >>> 18), 0x80 ||| ((n >>> 12) &&& 0x3F),
     0x80 ||| ((n >>> 6) &&& 0x3F), 0x80 ||| (n &&& 0x3F)]

/-- Go `[]byte(s)`: the UTF-8 bytes of a string. -/
def strBytes (s : String) : List Nat :=
  (s.data.map utf8Bytes).flatten

/-- `computeHMAC` (deliverer.go lines 316-320). -/
def computeHMAC (payload : List Nat) (secret : String) : String :=
  hexEncode (hmacSha256 (strBytes secret) payload)

/-! ## The `Deliver` pipeline (deliverer.go lines 53-140) -/

/-- What the network did with the POST: `response status body` (the body
already truncated to the first 1024 bytes read), a transport error
carrying Go's error text, or a request-construction error before any
bytes were sent. -/
inductive HttpOutcome where
  | response (status : Int) (truncBody : String)
  | transportError (err : String)
  | buildError (err : String)
  deriving Repr, DecidableEq

/-- The HTTP request as assembled by `Deliver` before `httpClient.Do`. -/
structure HttpRequest where
  url : String
  body : List Nat
  contentType : String
  signatureHeader : String
  eventHeader : String
  idHeader : String
  attemptHeader : String
  deriving Repr, DecidableEq

/-- The request built for `job` (method POST, body = payload bytes). -/
def buildRequest (job : DeliveryJob) : HttpRequest :=
  { url := job.endpointURL
    body := job.payload
    contentType := "application/json"
    signatureHeader := computeHMAC job.payload job.secretKey
    eventHeader := job.eventType
    idHeader := job.eventID
    attemptHeader := toString job.attempt }

/-- Externally visible effects of one `Deliver` call: the request sent
(if admission passed and it was constructed), the circuit-breaker hash
and rate-limiter set afterwards, the attempt row written (if any), the
dead-letter row written (if any), and the job/score enqueued (if any). -/
structure DeliverResult where
  sent : Option HttpRequest
  cb : CBHash
  rl : ZSet
  attemptRow : Option AttemptRecord
  dlqRow : Option DeadLetterRecord
  enqueued : Option (DeliveryJob × Int)
  deriving Repr, DecidableEq

/-- `Deliverer.requeueWithDelay`: `ZADD` of the unchanged job with
score `(now + delay).UnixMicro()`; no attempt row, no dead letter. -/
def requeueWithDelay (job : DeliveryJob) (nowMicro delayMicros : Int)
    (cb : CBHash) (rl : ZSet) : DeliverResult :=
  { sent := none, cb := cb, rl := rl, attemptRow := none, dlqRow := none
    enqueued := some (job, nowMicro + delayMicros) }

/-- `Deliverer.Deliver`.  Time parameters are the clock reads the code
makes: `nowSec` (`time.Now().Unix()` seen by the circuit breaker),
`nowMicro` (`UnixMicro` used for queue scores), `nowMs`
(`UnixMilli` used by the rate limiter).  `rlMember` is the unique member
string the limiter builds, `jitterMs` the retry jitter draw, and
`outcome` the network oracle. -/
def Deliver (job : DeliveryJob) (cb : CBHash) (rl : ZSet)
    (nowSec nowMicro nowMs : Int) (rlMember : String) (jitterMs : Nat)
    (outcome : HttpOutcome) : DeliverResult :=
  let ar := AllowRequest nowSec cb
  if !ar.allowed then
    -- circuit open: re-queue with 5 s delay
    requeueWithDelay job nowMicro 5000000 ar.hash rl
  else
    let rlr := RLAllow rl job.rateLimitPerSecond nowMs rlMember
    if !rlr.allowed then
      -- rate limited: re-queue with 1 s delay
      requeueWithDelay job nowMicro 1000000 ar.hash rlr.zset
    else
      match outcome with
      | .buildError e =>
        let fx := handleFailure job nowMicro jitterMs none ""
          ("failed to create request: " ++ e)
        { sent := none, cb := RecordFailure nowSec ar.hash, rl := rlr.zset
          attemptRow := some fx.attemptRow, dlqRow := fx.dlqRow
          enqueued := fx.enqueued }
      | .transportError e =>
        let fx := handleFailure job nowMicro jitterMs none ""
          ("request failed: " ++ e)
        { sent := some (buildRequest job), cb := RecordFailure nowSec ar.hash
          rl := rlr.zset, attemptRow := some fx.attemptRow
          dlqRow := fx.dlqRow, enqueued := fx.enqueued }
      | .response status body =>
        if 200 ≤ status ∧ status < 300 then
          { sent := some (buildRequest job)
            cb := RecordSuccess ar.hash, rl := rlr.zset
            attemptRow := some (recordAttempt job (some status) body "" none)
            dlqRow := none, enqueued := none }
        else
          let fx := handleFailure job nowMicro jitterMs (some status) body ""
          { sent := some (buildRequest job)
            cb := RecordFailure nowSec ar.hash, rl := rlr.zset
            attemptRow := some fx.attemptRow, dlqRow := fx.dlqRow
            enqueued := fx.enqueued }

/-! ## Sample values for concrete evaluations -/

/-- A representative in-flight job (first attempt, unlimited rate). -/
def sampleJob : DeliveryJob :=
  { eventID := "evt-1"
    subscriberID := "sub-1"
    endpointURL := "http://example.com/hook"
    payload := strBytes "orderpayload"
    secretKey := "s3cr3t"
    eventType := "order.created"
    attempt := 1
    maxRetries := 5
    rateLimitPerSecond := 0 }

/-- A representative persisted event. -/
def sampleEvent : Event :=
  { id := "evt-1", eventType := "order.created", payload := strBytes "orderpayload" }

/-- An active subscriber configured with rate limit 7 requests/second. -/
def sampleSubscriber7 : Subscriber :=
  { id := "sub-1"
    name := "Acme"
    endpointURL := "http://example.com/hook"
    secretKey := "s3cr3t"
    isActive := true
    rateLimitPerSecond := 7 }

/-- An active subscriber used in the matching counterexample. -/
def cexSubscriber : Subscriber :=
  { id := "sub-9"
    name := "Underscore"
    endpointURL := "http://example.com/u"
    secretKey := "k"
    isActive := true
    rateLimitPerSecond := 0 }

/-- An active subscription whose pattern `_.*` carries a LIKE
metacharacter in its prefix. -/
def cexSubscription : Subscription :=
  { id := "t-9", subscriberID := "sub-9", eventTypePattern := "_.*", isActive := true }

/-- A circuit-breaker hash in state `open` with the failure counter at
the threshold, last failure at epoch second 0. -/
def sampleOpenHash : CBHash :=
  { state := some "open", failures := some 5, lastFailedAt := some 0 }

/-! ## Claim theorems -/

/-- C1: a delivery answered with HTTP 300 is classified as a failure
(`Deliver` takes the non-2xx branch: it schedules a retry and the
attempt row carries `next_retry_at`), yet the recorded attempt row has
status `"success"`, because `recordAttempt` only writes `"failed"` for a
nonempty error message or a status code `≥ 400`.  This exhibits the code
bug refuting the claim that every non-2xx response yields a row with
status `failed`. -/
theorem attempt_row_for_300_says_success :
    (Deliver sampleJob CBHash.emptyHash [] 1000 0 0 "m" 0
        (HttpOutcome.response 300 "")).attemptRow =
      some { eventID := "evt-1", subscriberID := "sub-1", attemptNumber := 1,
             status := "success", httpStatusCode := some 300,
             responseBody := "", errorMessage := "",
             nextRetryAt := some 2000000 } ∧
    (Deliver sampleJob CBHash.emptyHash [] 1000 0 0 "m" 0
        (HttpOutcome.response 300 "")).enqueued =
      some ({ sampleJob with attempt := 2 }, 2000000) ∧
    (Deliver sampleJob CBHash.emptyHash [] 1000 0 0 "m" 0
        (HttpOutcome.response 300 "")).cb =
      RecordFailure 1000 CBHash.emptyHash := by
  decide

/-- C2: fan-out for an event to a subscriber whose configured rate limit
is 7 produces a job whose `rateLimitPerSecond` is `0` (the composite
literal in `FanOut` omits the field), so the subscriber's rate limit is
not snapshotted into the job, refuting that part of the claim; the rest
of the job (URL and secret snapshot, attempt 1, batch score, count)
matches. -/
theorem fanout_does_not_snapshot_rate_limit :
    FanOut [sampleSubscriber7] sampleEvent 42 =
      ([({ eventID := "evt-1", subscriberID := "sub-1",
           endpointURL := "http://example.com/hook",
           payload := strBytes "orderpayload", secretKey := "s3cr3t",
           eventType := "order.created", attempt := 1, maxRetries := 5,
           rateLimitPerSecond := 0 }, 42)], 1) ∧
    sampleSubscriber7.rateLimitPerSecond = 7 ∧
    (fanOutJob sampleEvent sampleSubscriber7).rateLimitPerSecond ≠
      sampleSubscriber7.rateLimitPerSecond := by
  refine ⟨rfl, rfl, ?_⟩
  decide

/-- C4: the scheduled retry job preserves every field of the failed job
except the attempt number, which grows by exactly 1, and its queue score
is `now + 2^attempt seconds + jitter milliseconds` with the jitter drawn
from `[0, 1000)`, so the delay lies in `[2^attempt s, 2^attempt s + 1 s)`
— ≈2 s, 4 s, 8 s, 16 s, 32 s for attempts 1…5. -/
theorem retry_increments_attempt_with_backoff (job : DeliveryJob)
    (nowMicro : Int) (jitterMs : Nat) (hj : jitterMs < 1000) :
    (scheduleRetry job nowMicro jitterMs).1 =
      { job with attempt := job.attempt + 1 } ∧
    (scheduleRetry job nowMicro jitterMs).2 =
      nowMicro + (((2 ^ job.attempt : Nat) : Int) * 1000000 +
        (jitterMs : Int) * 1000) ∧
    nowMicro + ((2 ^ job.attempt : Nat) : Int) * 1000000 ≤
      (scheduleRetry job nowMicro jitterMs).2 ∧
    (scheduleRetry job nowMicro jitterMs).2 <
      nowMicro + ((2 ^ job.attempt : Nat) : Int) * 1000000 + 1000000 := by
  have h2 : (scheduleRetry job nowMicro jitterMs).2 =
      nowMicro + (((2 ^ job.attempt : Nat) : Int) * 1000000 +
        (jitterMs : Int) * 1000) := by
    simp [scheduleRetry]
  refine ⟨rfl, h2, ?_, ?_⟩ <;> rw [h2] <;> omega

/-- C5: on a failed delivery a dead-letter row is written iff the
attempt number has reached `maxRetries`; that row copies the event and
subscriber ids, carries `total_attempts = attempt` and the last
status/error; below the bound a retry is enqueued, the attempt row's
`next_retry_at` is set to the retry time, and no dead-letter row is
written.  For a sequence that starts at attempt 1 (so `attempt ≤
maxRetries` when the terminal failure happens) the dead-letter row has
`total_attempts = maxRetries` exactly. -/
theorem dead_letter_iff_attempts_exhausted (job : DeliveryJob)
    (nowMicro : Int) (jitterMs : Nat) (statusCode : Option Int)
    (body errMsg : String) :
    ((handleFailure job nowMicro jitterMs statusCode body errMsg).dlqRow.isSome
        = true ↔ job.maxRetries ≤ job.attempt) ∧
    (∀ d, (handleFailure job nowMicro jitterMs statusCode body errMsg).dlqRow
        = some d →
      d.totalAttempts = job.attempt ∧ d.eventID = job.eventID ∧
      d.subscriberID = job.subscriberID ∧ d.lastHTTPStatus = statusCode ∧
      d.lastError = errMsg) ∧
    (job.attempt < job.maxRetries →
      (handleFailure job nowMicro jitterMs statusCode body errMsg).enqueued
          = some (scheduleRetry job nowMicro jitterMs) ∧
      (handleFailure job nowMicro jitterMs statusCode body errMsg).attemptRow.nextRetryAt
          = some (scheduleRetry job nowMicro jitterMs).2 ∧
      (handleFailure job nowMicro jitterMs statusCode body errMsg).dlqRow
          = none) ∧
    (job.attempt ≤ job.maxRetries → job.maxRetries ≤ job.attempt →
      ∀ d, (handleFailure job nowMicro jitterMs statusCode body errMsg).dlqRow
          = some d → d.totalAttempts = job.maxRetries) := by
  by_cases h : job.attempt < job.maxRetries <;>
    simp [handleFailure, h, recordAttempt, moveToDLQ]
  all_goals omega

/-- A hash whose read state is the nonempty string `s` stores
`some s`. -/
theorem state_eq_of_stateVal {h : CBHash} {s : String}
    (hs : h.stateVal = s) (hne : ¬s = "") : h.state = some s := by
  cases hstate : h.state with
  | none => simp [CBHash.stateVal, hstate] at hs; exact absurd hs.symm hne
  | some v => simp [CBHash.stateVal, hstate] at hs; simp [hs]

/-- A hash with a stored state field is not the missing-key hash. -/
theorem isEmptyHash_eq_false_of_state {h : CBHash} {s : String}
    (hs : h.state = some s) : h.isEmptyHash = false := by
  simp [CBHash.isEmptyHash, hs]

/-- C6: when the circuit breaker refuses, `Deliver` re-enqueues the very
same job with score `now + 5 s`; when the breaker admits but the rate
limiter refuses, the same job is re-enqueued with score `now + 1 s`.  In
both cases the full result shows nothing was sent, no attempt row and no
dead-letter row were written, and the attempt number is untouched. -/
theorem deferral_requeues_job_unchanged (job : DeliveryJob) (cb : CBHash)
    (rl : ZSet) (nowSec nowMicro nowMs : Int) (rlMember : String)
    (jitterMs : Nat) (outcome : HttpOutcome) :
    ((AllowRequest nowSec cb).allowed = false →
      Deliver job cb rl nowSec nowMicro nowMs rlMember jitterMs outcome =
        { sent := none, cb := (AllowRequest nowSec cb).hash, rl := rl
          attemptRow := none, dlqRow := none
          enqueued := some (job, nowMicro + 5000000) }) ∧
    ((AllowRequest nowSec cb).allowed = true →
      (RLAllow rl job.rateLimitPerSecond nowMs rlMember).allowed = false →
      Deliver job cb rl nowSec nowMicro nowMs rlMember jitterMs outcome =
        { sent := none, cb := (AllowRequest nowSec cb).hash
          rl := (RLAllow rl job.rateLimitPerSecond nowMs rlMember).zset
          attemptRow := none, dlqRow := none
          enqueued := some (job, nowMicro + 1000000) }) := by
  constructor
  · intro hcb
    simp [Deliver, hcb, requeueWithDelay]
  · intro hcb hrl
    simp [Deliver, hcb, hrl, requeueWithDelay]

/-- C7: for a positive limit the atomic script first evicts every member
with score ≤ now − 1000 ms (and nothing else), then admits exactly when
the remaining count is under the limit, in which case it adds the fresh
member at score `now` and sets the key TTL to 2 seconds; on refusal it
adds nothing and sets no TTL.  `Allow` with limit 0 admits without any
KV operation. -/
theorem rate_limiter_sliding_window (s : ZSet) (limit nowMs : Int)
    (member : String) :
    (0 < limit →
      ((slidingWindowScript s nowMs 1000 limit member).ret = 1 ↔
        ((zremrangebyscoreLe s (nowMs - 1000)).length : Int) < limit) ∧
      ((slidingWindowScript s nowMs 1000 limit member).ret = 1 →
        (slidingWindowScript s nowMs 1000 limit member).zset =
          zadd (zremrangebyscoreLe s (nowMs - 1000)) member nowMs ∧
        (slidingWindowScript s nowMs 1000 limit member).ttl = some 2) ∧
      ((slidingWindowScript s nowMs 1000 limit member).ret ≠ 1 →
        (slidingWindowScript s nowMs 1000 limit member).zset =
          zremrangebyscoreLe s (nowMs - 1000) ∧
        (slidingWindowScript s nowMs 1000 limit member).ttl = none) ∧
      RLAllow s limit nowMs member =
        ⟨(slidingWindowScript s nowMs 1000 limit member).zset,
         (slidingWindowScript s nowMs 1000 limit member).ret == 1, true⟩) ∧
    RLAllow s 0 nowMs member = ⟨s, true, false⟩ ∧
    (∀ m ∈ zremrangebyscoreLe s (nowMs - 1000), nowMs - 1000 < m.2) ∧
    (∀ m ∈ s, nowMs - 1000 < m.2 →
      m ∈ zremrangebyscoreLe s (nowMs - 1000)) := by
  refine ⟨?_, ?_, ?_, ?_⟩
  · intro hl
    have hnle : ¬limit ≤ 0 := by omega
    by_cases hc : ((zremrangebyscoreLe s (nowMs - 1000)).length : Int) < limit <;>
      simp [slidingWindowScript, RLAllow, hc, hnle]
  · simp [RLAllow]
  · intro m hm
    simpa [zremrangebyscoreLe] using (List.mem_filter.mp hm).2
  · intro m hm hscore
    exact List.mem_filter.mpr ⟨hm, by simpa [zremrangebyscoreLe] using hscore⟩

/-- C10: the open-with-cooldown-elapsed admission writes only the state
field of the record — the failure counter and the last-failure timestamp
keep their stored values — while transitioning to `half-open` and
admitting. -/
theorem half_open_transition_preserves_counters (h : CBHash) (now : Int)
    (h1 : h.stateVal = "open")
    (h2 : cooldownSeconds ≤ now - h.lastFailedAtVal) :
    (AllowRequest now h).hash.state = some "half-open" ∧
    (AllowRequest now h).hash.failures = h.failures ∧
    (AllowRequest now h).hash.lastFailedAt = h.lastFailedAt ∧
    (AllowRequest now h).allowed = true ∧
    (AllowRequest now h).stateName = "half-open" := by
  have hstate := state_eq_of_stateVal h1 (by decide)
  have hempty := isEmptyHash_eq_false_of_state hstate
  simp [AllowRequest, hempty, h1, h2]

/-- C3: the per-subscriber circuit-breaker record follows the specified
state machine: `RecordFailure` increments the counter and stamps
`last_failed_at`, opening the circuit when the prior state was
`half-open` or the counter reaches the threshold 5; `RecordSuccess`
closes the circuit and zeroes the counter; `AllowRequest` admits in
`closed` and `half-open`, refuses in `open` before the 30 s cooldown,
and after the cooldown writes `half-open` and admits; a missing record
behaves exactly like a closed record with zero failures. -/
theorem circuit_breaker_state_machine (h : CBHash) (now : Int) :
    ((RecordFailure now h).failuresVal = h.failuresVal + 1 ∧
     (RecordFailure now h).lastFailedAt = some now) ∧
    ((h.stateVal = "half-open" ∨ failureThreshold ≤ h.failuresVal + 1) →
      (RecordFailure now h).stateVal = "open") ∧
    ((RecordSuccess h).stateVal = "closed" ∧
     (RecordSuccess h).failuresVal = 0) ∧
    (h.stateVal = "closed" → (AllowRequest now h).allowed = true) ∧
    (h.stateVal = "half-open" → (AllowRequest now h).allowed = true) ∧
    (h.stateVal = "open" → now - h.lastFailedAtVal < cooldownSeconds →
      (AllowRequest now h).allowed = false) ∧
    (h.stateVal = "open" → cooldownSeconds ≤ now - h.lastFailedAtVal →
      (AllowRequest now h).allowed = true ∧
      (AllowRequest now h).hash = { h with state := some "half-open" }) ∧
    (h.isEmptyHash = true →
      (AllowRequest now h).allowed = true ∧
      (AllowRequest now h).stateName = "closed" ∧
      (AllowRequest now h).hash = h ∧
      RecordFailure now h =
        RecordFailure now
          { state := some "closed", failures := some 0,
            lastFailedAt := h.lastFailedAt }) := by
  refine ⟨⟨?_, ?_⟩, ?_, ⟨?_, ?_⟩, ?_, ?_, ?_, ?_, ?_⟩
  · simp [RecordFailure, CBHash.failuresVal, CBHash.stateVal]
    split_ifs <;> simp
  · simp [RecordFailure, CBHash.stateVal]
    split_ifs <;> simp
  · intro hcase
    rcases hcase with hho | hth
    · simp [RecordFailure, CBHash.stateVal] at hho ⊢
      simp [hho]
    · simp [RecordFailure, CBHash.stateVal, CBHash.failuresVal] at hth ⊢
      split_ifs <;> simp_all
  · simp [RecordSuccess, CBHash.stateVal]
  · simp [RecordSuccess, CBHash.failuresVal]
  · intro h1
    have hstate := state_eq_of_stateVal h1 (by decide)
    have hempty := isEmptyHash_eq_false_of_state hstate
    simp [AllowRequest, hempty, h1]
  · intro h1
    have hstate := state_eq_of_stateVal h1 (by decide)
    have hempty := isEmptyHash_eq_false_of_state hstate
    simp [AllowRequest, hempty, h1]
  · intro h1 h2
    have hstate := state_eq_of_stateVal h1 (by decide)
    have hempty := isEmptyHash_eq_false_of_state hstate
    have h2' : ¬(cooldownSeconds ≤ now - h.lastFailedAtVal) := by omega
    simp [AllowRequest, hempty, h1, h2']
  · intro h1 h2
    have hstate := state_eq_of_stateVal h1 (by decide)
    have hempty := isEmptyHash_eq_false_of_state hstate
    simp [AllowRequest, hempty, h1, h2]
  · intro hempty
    have hfields : (h.state = none ∧ h.failures = none) ∧ h.lastFailedAt = none := by
      simpa [CBHash.isEmptyHash, Option.isNone_iff_eq_none] using hempty
    obtain ⟨⟨hs, hf⟩, hl⟩ := hfields
    refine ⟨?_, ?_, ?_, ?_⟩ <;>
      simp [AllowRequest, RecordFailure, hempty, hs, hf, hl,
        CBHash.stateVal, CBHash.failuresVal]

/-- Whenever `Deliver` reports a sent request, that request is exactly
the one assembled by `buildRequest` for the job. -/
theorem deliver_sent_inv {job : DeliveryJob} {cb : CBHash} {rl : ZSet}
    {nowSec nowMicro nowMs : Int} {rlMember : String} {jitterMs : Nat}
    {outcome : HttpOutcome} {req : HttpRequest}
    (hs : (Deliver job cb rl nowSec nowMicro nowMs rlMember jitterMs
      outcome).sent = some req) : req = buildRequest job := by
  simp only [Deliver] at hs
  split at hs
  · simp [requeueWithDelay] at hs
  · split at hs
    · simp [requeueWithDelay] at hs
    · cases outcome with
      | buildError e => simp at hs
      | transportError e => simpa [eq_comm] using hs
      | response status body =>
        by_cases h2xx : 200 ≤ status ∧ status < 300 <;>
          simp [h2xx, eq_comm] at hs <;> exact hs

/-- Hex digits of values below 16 come from the lowercase alphabet. -/
theorem hexDigit_mem_of_lt {m : Nat} (hm : m < 16) :
    hexDigit m ∈ "0123456789abcdef".data := by
  interval_cases m <;> decide

/-- Every character of a hex encoding is a lowercase hex digit. -/
theorem hexEncode_chars {bytes : List Nat} {c : Char}
    (hc : c ∈ (hexEncode bytes).data) : c ∈ "0123456789abcdef".data := by
  simp only [hexEncode, List.mem_flatten, List.mem_map] at hc
  obtain ⟨l, ⟨b, hb, rfl⟩, hcl⟩ := hc
  simp only [List.mem_cons, List.not_mem_nil, or_false] at hcl
  rcases hcl with h | h <;>
    exact h ▸ hexDigit_mem_of_lt (Nat.mod_lt _ (by norm_num))

/-- C9: every request that `Deliver` actually sends carries an
`X-Webhook-Signature` equal to the lowercase hexadecimal of
HMAC-SHA256 keyed with the subscriber secret's bytes over the raw
payload bytes (which are also the request body), and the signature is a
deterministic function of (payload, secret). -/
theorem sent_signature_is_hmac_sha256 (job : DeliveryJob) (cb : CBHash)
    (rl : ZSet) (nowSec nowMicro nowMs : Int) (rlMember : String)
    (jitterMs : Nat) (outcome : HttpOutcome) (req : HttpRequest)
    (hs : (Deliver job cb rl nowSec nowMicro nowMs rlMember jitterMs
      outcome).sent = some req) :
    req.signatureHeader =
      hexEncode (hmacSha256 (strBytes job.secretKey) job.payload) ∧
    req.body = job.payload ∧
    (∀ c ∈ req.signatureHeader.data, c ∈ "0123456789abcdef".data) ∧
    (∀ job' : DeliveryJob, job'.payload = job.payload →
      job'.secretKey = job.secretKey →
      computeHMAC job'.payload job'.secretKey =
        computeHMAC job.payload job.secretKey) := by
  obtain rfl := deliver_sent_inv hs
  refine ⟨rfl, rfl, ?_, ?_⟩
  · intro c hc
    exact hexEncode_chars (by simpa [buildRequest, computeHMAC] using hc)
  · intro job' hp hk
    rw [hp, hk]

/-- Unfolding of `likeMatch` at the `%` wildcard. -/
theorem likeMatch_pct_cons (p t : List Char) :
    likeMatch ('%' :: p) t = (t.tails.any fun s => likeMatch p s) := by
  rw [likeMatch.eq_def]
  simp

/-- Unfolding of `likeMatch` at the empty pattern. -/
theorem likeMatch_nil (t : List Char) : likeMatch [] t = t.isEmpty := by
  rw [likeMatch.eq_def]

/-- Unfolding of `likeMatch` at a literal (non-metacharacter) pattern
head. -/
theorem likeMatch_lit_cons {c : Char} (hc1 : ¬(c = '%')) (hc2 : ¬(c = '_'))
    (hc3 : ¬(c = '\\')) (p t : List Char) :
    likeMatch (c :: p) t =
      (match t with
       | [] => false
       | d :: t' => c == d && likeMatch p t') := by
  rw [likeMatch.eq_def]
  simp only [if_neg hc1, if_neg hc2, if_neg hc3]

/-- The LIKE pattern `%` matches every text. -/
theorem likeMatch_percent_all (t : List Char) : likeMatch ['%'] t = true := by
  rw [likeMatch_pct_cons]
  rw [List.any_eq_true]
  exact ⟨[], (List.mem_tails _ _).mpr List.nil_suffix, rfl⟩

/-- The LIKE pattern `.*` (both characters literal) matches only the
text `.*` itself. -/
theorem likeMatch_dotstar_iff (t : List Char) :
    likeMatch ['.', '*'] t = true ↔ t = ['.', '*'] := by
  rcases t with _ | ⟨d, t'⟩
  · rw [likeMatch_lit_cons (by decide) (by decide) (by decide)]
    simp
  · rw [likeMatch_lit_cons (by decide) (by decide) (by decide)]
    show ('.' == d && likeMatch ['*'] t') = true ↔ _
    rcases t' with _ | ⟨e, t''⟩
    · rw [likeMatch_lit_cons (by decide) (by decide) (by decide)]
      simp
    · rw [likeMatch_lit_cons (by decide) (by decide) (by decide)]
      show ('.' == d && ('*' == e && likeMatch [] t'')) = true ↔ _
      rw [likeMatch_nil]
      simp only [Bool.and_eq_true, beq_iff_eq, List.isEmpty_iff,
        List.cons.injEq]
      constructor
      · rintro ⟨h1, h2, h3⟩
        exact ⟨h1.symm, h2.symm, by simpa using h3⟩
      · rintro ⟨h1, h2, h3⟩
        exact ⟨h1.symm, h2.symm, by simp [h3]⟩

/-- The check `pattern LIKE '%.*'` holds exactly when the pattern ends
with the two characters `.*`. -/
theorem likeMatch_percent_dotstar (p : List Char) :
    likeMatch ['%', '.', '*'] p = true ↔ ['.', '*'] <:+ p := by
  rw [likeMatch_pct_cons, List.any_eq_true]
  constructor
  · rintro ⟨x, hx, hm⟩
    rw [likeMatch_dotstar_iff] at hm
    subst hm
    exact (List.mem_tails _ _).mp hx
  · intro h
    exact ⟨['.', '*'], (List.mem_tails _ _).mpr h,
      (likeMatch_dotstar_iff _).mpr rfl⟩

/-- Decomposition of `plainChars` at a cons. -/
theorem plainChars_cons {c : Char} {u : List Char}
    (h : plainChars (c :: u) = true) :
    ¬(c = '%') ∧ ¬(c = '_') ∧ ¬(c = '\\') ∧ plainChars u = true := by
  simp [plainChars] at h ⊢
  tauto

/-- A LIKE pattern starting with a wildcard-free prefix `u` matches
exactly the texts of the form `u ++ t₂` where the rest of the pattern
matches `t₂`. -/
theorem likeMatch_plain_append (u q t : List Char)
    (hu : plainChars u = true) :
    likeMatch (u ++ q) t = true ↔
      ∃ t₂, t = u ++ t₂ ∧ likeMatch q t₂ = true := by
  induction u generalizing t with
  | nil => simp
  | cons c u' ih =>
    have hc := plainChars_cons hu
    rw [List.cons_append]
    rcases t with _ | ⟨d, t'⟩
    · rw [likeMatch_lit_cons hc.1 hc.2.1 hc.2.2.1]
      simp
    · rw [likeMatch_lit_cons hc.1 hc.2.1 hc.2.2.1]
      show (c == d && likeMatch (u' ++ q) t') = true ↔ _
      rw [Bool.and_eq_true, beq_iff_eq, ih t' hc.2.2.2]
      constructor
      · rintro ⟨rfl, t₂, rfl, hq⟩
        exact ⟨t₂, rfl, hq⟩
      · rintro ⟨t₂, heq, hq⟩
        rw [List.cons_append] at heq
        injection heq with h1 h2
        exact ⟨h1.symm, t₂, h2, hq⟩

/-- A wildcard-free LIKE pattern `u ++ ".%"` matches exactly the texts
beginning with `u ++ "."`. -/
theorem likeMatch_plain_dot_percent (u : List Char)
    (hu : plainChars u = true) (e : List Char) :
    likeMatch (u ++ ['.', '%']) e = true ↔ (u ++ ['.']) <+: e := by
  rw [likeMatch_plain_append u ['.', '%'] e hu]
  constructor
  · rintro ⟨t₂, rfl, hq⟩
    rw [likeMatch_lit_cons (by decide) (by decide) (by decide)] at hq
    rcases t₂ with _ | ⟨d, t₃⟩
    · cases hq
    · simp only [Bool.and_eq_true, beq_iff_eq] at hq
      obtain ⟨rfl, _⟩ := hq
      exact ⟨t₃, by simp⟩
  · rintro ⟨r, hr⟩
    refine ⟨'.' :: r, by rw [← hr]; simp, ?_⟩
    rw [likeMatch_lit_cons (by decide) (by decide) (by decide)]
    show ('.' == '.' && likeMatch ['%'] r) = true
    simp [likeMatch_percent_all]

/-- `REPLACE(pattern, '.*', '.%')` on a pattern whose prefix contains no
`.*` rewrites only the trailing `.*`. -/
theorem replaceDotStar_clean (u : List Char) (hu : hasDotStar u = false) :
    replaceDotStar (u ++ ['.', '*']) = u ++ ['.', '%'] := by
  induction u with
  | nil => decide
  | cons c tail ih =>
    cases tail with
    | nil =>
      show replaceDotStar (c :: '.' :: ['*']) = c :: '.' :: ['%']
      simp [replaceDotStar]
    | cons d u'' =>
      have hcd : ¬(c = '.' ∧ d = '*') := by
        intro hand
        obtain ⟨h1, h2⟩ := hand
        subst h1; subst h2
        simp [hasDotStar] at hu
      have htail : hasDotStar (d :: u'') = false := by
        simpa [hasDotStar, hcd] using hu
      calc replaceDotStar ((c :: d :: u'') ++ ['.', '*'])
          = c :: replaceDotStar ((d :: u'') ++ ['.', '*']) := by
            simp [replaceDotStar, hcd]
        _ = c :: ((d :: u'') ++ ['.', '%']) := by rw [ih htail]
        _ = (c :: d :: u'') ++ ['.', '%'] := rfl

/-- The SQL matching condition, read propositionally. -/
theorem sqlMatch_eq_true_iff (p e : List Char) :
    sqlMatch p e = true ↔
      p = e ∨ p = ['*'] ∨
        (likeMatch ['%', '.', '*'] p = true ∧
         likeMatch (replaceDotStar p) e = true) := by
  simp [sqlMatch, or_assoc]

/-- The spec-modelled matching condition, read propositionally. -/
theorem specMatch_eq_true_iff (p e : List Char) :
    specMatch p e = true ↔
      p = e ∨ p = ['*'] ∨
        (['.', '*'] <:+ p ∧ (p.dropLast.dropLast ++ ['.']) <+: e) := by
  simp [specMatch, List.isSuffixOf_iff_suffix, List.isPrefixOf_iff_prefix,
    or_assoc]

/-- On patterns built from a wildcard-free prefix and the trailing `.*`,
the SQL condition and the spec's reading agree. -/
theorem sqlMatch_clean_eq_specMatch (u e : List Char)
    (hu1 : plainChars u = true) (hu2 : hasDotStar u = false) :
    sqlMatch (u ++ ['.', '*']) e = specMatch (u ++ ['.', '*']) e := by
  have hsuffix : ['.', '*'] <:+ u ++ ['.', '*'] := ⟨u, rfl⟩
  have hdrop : (u ++ ['.', '*']).dropLast.dropLast = u := by
    rw [show u ++ ['.', '*'] = (u ++ ['.']) ++ ['*'] by simp]
    rw [List.dropLast_concat, List.dropLast_concat]
  rw [Bool.eq_iff_iff, sqlMatch_eq_true_iff, specMatch_eq_true_iff, hdrop,
    replaceDotStar_clean u hu2]
  rw [likeMatch_percent_dotstar, likeMatch_plain_dot_percent u hu1]

/-- Away from trailing-`.*` patterns both conditions degenerate to
equality-or-universal. -/
theorem sqlMatch_eq_specMatch_of_not_suffix (p e : List Char)
    (h : ¬(['.', '*'] <:+ p)) : sqlMatch p e = specMatch p e := by
  have h1 : likeMatch ['%', '.', '*'] p = false := by
    cases hb : likeMatch ['%', '.', '*'] p
    · rfl
    · exact absurd ((likeMatch_percent_dotstar p).mp hb) h
  have h2 : List.isSuffixOf ['.', '*'] p = false := by
    cases hb : List.isSuffixOf ['.', '*'] p
    · rfl
    · exact absurd (List.isSuffixOf_iff_suffix.mp hb) h
  simp [sqlMatch, specMatch, h1, h2]

/-- C8 (amended): `FindMatchingSubscribers` returns exactly the active
subscribers with an active matching subscription, where matching is the
SQL condition (literal equality, universal `*`, or `LIKE` on
`REPLACE(pattern, '.*', '.%')`).  For a pattern whose trailing `.*` is
its only wildcard (prefix free of `%`, `_`, `\` and of further `.*`)
this coincides with the spec's reading — the event type begins with the
prefix followed by a dot — and for every pattern not ending in `.*` the
two readings agree as well; `*` matches every event type, and `order.*`
matches `order.created` but not `payment.created`. -/
theorem find_matching_follows_sql_like (subscribers : List Subscriber)
    (subscriptions : List Subscription) (eventType : String)
    (s : Subscriber) (u e : List Char) (hu1 : plainChars u = true)
    (hu2 : hasDotStar u = false) :
    (s ∈ FindMatchingSubscribers subscribers subscriptions eventType ↔
      s ∈ subscribers ∧ s.isActive = true ∧
        ∃ t ∈ subscriptions, t.subscriberID = s.id ∧ t.isActive = true ∧
          sqlMatch t.eventTypePattern.data eventType.data = true) ∧
    sqlMatch (u ++ ['.', '*']) e = specMatch (u ++ ['.', '*']) e ∧
    (sqlMatch (u ++ ['.', '*']) e = true ↔
      u ++ ['.', '*'] = e ∨ (u ++ ['.']) <+: e) ∧
    (∀ p : List Char, ¬(['.', '*'] <:+ p) →
      sqlMatch p e = specMatch p e) ∧
    (∀ e' : List Char, sqlMatch ['*'] e' = true) ∧
    sqlMatch "order.*".data "order.created".data = true ∧
    sqlMatch "order.*".data "payment.created".data = false := by
  refine ⟨?_, sqlMatch_clean_eq_specMatch u e hu1 hu2, ?_,
    fun p hp => sqlMatch_eq_specMatch_of_not_suffix p e hp, ?_,
    by decide, by decide⟩
  · simp [FindMatchingSubscribers, List.mem_filter, List.any_eq_true,
      Bool.and_eq_true, beq_iff_eq]
    tauto
  · have hne : u ++ ['.', '*'] ≠ ['*'] := by
      intro hp
      have hlen := congrArg List.length hp
      simp at hlen
    rw [sqlMatch_eq_true_iff, replaceDotStar_clean u hu2,
      likeMatch_percent_dotstar, likeMatch_plain_dot_percent u hu1]
    have hsuffix : ['.', '*'] <:+ u ++ ['.', '*'] := ⟨u, rfl⟩
    simp [hne, hsuffix]
  · intro e'
    simp [sqlMatch]

/-- C8 counterexample: the active subscriber with active subscription
pattern `_.*` is returned for event type `b.c` (the `_` acts as a SQL
LIKE wildcard), although under the claim's matching rules `_.*` does not
match `b.c` (it does not begin with `_.`). -/
theorem underscore_pattern_matches_via_like :
    FindMatchingSubscribers [cexSubscriber] [cexSubscription] "b.c" =
      [cexSubscriber] ∧
    cexSubscription.eventTypePattern = "_.*" ∧
    cexSubscription.isActive = true ∧
    cexSubscriber.isActive = true ∧
    specMatch "_.*".data "b.c".data = false := by
  decide

/-! ## Known-answer validation of the hash embedding -/

set_option maxRecDepth 8192 in
set_option maxRecDepth 8192 in
set_option maxRecDepth 8192 in
/-- FIPS 180-4 test vector: SHA-256 of the empty message. -/
theorem sha256_empty_vector :
    hexEncode (sha256 []) =
      "e3b0c44298fc1c149afbf4c8996fb92427ae41e4649b934ca495991b7852b855" := by
  decide

set_option maxRecDepth 8192 in
set_option maxRecDepth 8192 in
set_option maxRecDepth 8192 in
/-- FIPS 180-4 test vector: SHA-256 of the three bytes `abc`. -/
theorem sha256_abc_vector :
    hexEncode (sha256 (strBytes "abc")) =
      "ba7816bf8f01cfea414140de5dae2223b00361a396177a9cb410ff61f20015ad" := by
  decide

set_option maxRecDepth 8192 in
set_option maxRecDepth 8192 in
set_option maxRecDepth 8192 in
/-- RFC 2104 test vector: HMAC-SHA256 with key `key` over the fox
sentence. -/
theorem hmac_sha256_vector :
    hexEncode (hmacSha256 (strBytes "key")
        (strBytes "The quick brown fox jumps over the lazy dog")) =
      "f7bc83f430538424b13298e6aa6fb143ef4d59a14946175997479dbc2d1a3cd8" := by
  decide

/-! ## Witnesses: the claim theorems evaluated at concrete inputs -/

/-- Witness for the circuit-breaker state machine at a concrete open
record with the cooldown just elapsed. -/
theorem circuit_breaker_state_machine_witness :
    ((RecordFailure 30 sampleOpenHash).failuresVal =
        sampleOpenHash.failuresVal + 1 ∧
     (RecordFailure 30 sampleOpenHash).lastFailedAt = some 30) ∧
    ((sampleOpenHash.stateVal = "half-open" ∨
        failureThreshold ≤ sampleOpenHash.failuresVal + 1) →
      (RecordFailure 30 sampleOpenHash).stateVal = "open") ∧
    ((RecordSuccess sampleOpenHash).stateVal = "closed" ∧
     (RecordSuccess sampleOpenHash).failuresVal = 0) ∧
    (sampleOpenHash.stateVal = "closed" →
      (AllowRequest 30 sampleOpenHash).allowed = true) ∧
    (sampleOpenHash.stateVal = "half-open" →
      (AllowRequest 30 sampleOpenHash).allowed = true) ∧
    (sampleOpenHash.stateVal = "open" →
      30 - sampleOpenHash.lastFailedAtVal < cooldownSeconds →
      (AllowRequest 30 sampleOpenHash).allowed = false) ∧
    (sampleOpenHash.stateVal = "open" →
      cooldownSeconds ≤ 30 - sampleOpenHash.lastFailedAtVal →
      (AllowRequest 30 sampleOpenHash).allowed = true ∧
      (AllowRequest 30 sampleOpenHash).hash =
        { sampleOpenHash with state := some "half-open" }) ∧
    (sampleOpenHash.isEmptyHash = true →
      (AllowRequest 30 sampleOpenHash).allowed = true ∧
      (AllowRequest 30 sampleOpenHash).stateName = "closed" ∧
      (AllowRequest 30 sampleOpenHash).hash = sampleOpenHash ∧
      RecordFailure 30 sampleOpenHash =
        RecordFailure 30
          { state := some "closed", failures := some 0,
            lastFailedAt := sampleOpenHash.lastFailedAt }) :=
  circuit_breaker_state_machine sampleOpenHash 30

/-- Witness for the retry scheduling law at attempt 1, jitter 500 ms. -/
theorem retry_backoff_witness :
    (scheduleRetry sampleJob 0 500).1 =
      { sampleJob with attempt := sampleJob.attempt + 1 } ∧
    (scheduleRetry sampleJob 0 500).2 =
      0 + (((2 ^ sampleJob.attempt : Nat) : Int) * 1000000 +
        ((500 : Nat) : Int) * 1000) ∧
    0 + ((2 ^ sampleJob.attempt : Nat) : Int) * 1000000 ≤
      (scheduleRetry sampleJob 0 500).2 ∧
    (scheduleRetry sampleJob 0 500).2 <
      0 + ((2 ^ sampleJob.attempt : Nat) : Int) * 1000000 + 1000000 :=
  retry_increments_attempt_with_backoff sampleJob 0 500 (by decide)

/-- Witness for failure handling at a concrete failed attempt. -/
theorem dead_letter_witness :
    ((handleFailure sampleJob 0 1 (some 500) "" "boom").dlqRow.isSome
        = true ↔ sampleJob.maxRetries ≤ sampleJob.attempt) ∧
    (∀ d, (handleFailure sampleJob 0 1 (some 500) "" "boom").dlqRow
        = some d →
      d.totalAttempts = sampleJob.attempt ∧ d.eventID = sampleJob.eventID ∧
      d.subscriberID = sampleJob.subscriberID ∧
      d.lastHTTPStatus = some 500 ∧ d.lastError = "boom") ∧
    (sampleJob.attempt < sampleJob.maxRetries →
      (handleFailure sampleJob 0 1 (some 500) "" "boom").enqueued
          = some (scheduleRetry sampleJob 0 1) ∧
      (handleFailure sampleJob 0 1 (some 500) "" "boom").attemptRow.nextRetryAt
          = some (scheduleRetry sampleJob 0 1).2 ∧
      (handleFailure sampleJob 0 1 (some 500) "" "boom").dlqRow
          = none) ∧
    (sampleJob.attempt ≤ sampleJob.maxRetries →
      sampleJob.maxRetries ≤ sampleJob.attempt →
      ∀ d, (handleFailure sampleJob 0 1 (some 500) "" "boom").dlqRow
          = some d → d.totalAttempts = sampleJob.maxRetries) :=
  dead_letter_iff_attempts_exhausted sampleJob 0 1 (some 500) "" "boom"

/-- Witness for the deferral law: a circuit refused 10 s after the last
failure re-enqueues the untouched job with a 5 s delay. -/
theorem deferral_witness :
    ((AllowRequest 10 sampleOpenHash).allowed = false →
      Deliver sampleJob sampleOpenHash [] 10 0 0 "m" 0
          (HttpOutcome.response 200 "") =
        { sent := none, cb := (AllowRequest 10 sampleOpenHash).hash, rl := []
          attemptRow := none, dlqRow := none
          enqueued := some (sampleJob, 0 + 5000000) }) ∧
    ((AllowRequest 10 sampleOpenHash).allowed = true →
      (RLAllow [] sampleJob.rateLimitPerSecond 0 "m").allowed = false →
      Deliver sampleJob sampleOpenHash [] 10 0 0 "m" 0
          (HttpOutcome.response 200 "") =
        { sent := none, cb := (AllowRequest 10 sampleOpenHash).hash
          rl := (RLAllow [] sampleJob.rateLimitPerSecond 0 "m").zset
          attemptRow := none, dlqRow := none
          enqueued := some (sampleJob, 0 + 1000000) }) :=
  deferral_requeues_job_unchanged sampleJob sampleOpenHash [] 10 0 0 "m" 0
    (HttpOutcome.response 200 "")

/-- Witness for the sliding-window law on a one-member set with
limit 2. -/
theorem rate_limiter_witness :
    (0 < (2 : Int) →
      ((slidingWindowScript [("a", 500)] 1000 1000 2 "m").ret = 1 ↔
        ((zremrangebyscoreLe [("a", 500)] (1000 - 1000)).length : Int) < 2) ∧
      ((slidingWindowScript [("a", 500)] 1000 1000 2 "m").ret = 1 →
        (slidingWindowScript [("a", 500)] 1000 1000 2 "m").zset =
          zadd (zremrangebyscoreLe [("a", 500)] (1000 - 1000)) "m" 1000 ∧
        (slidingWindowScript [("a", 500)] 1000 1000 2 "m").ttl = some 2) ∧
      ((slidingWindowScript [("a", 500)] 1000 1000 2 "m").ret ≠ 1 →
        (slidingWindowScript [("a", 500)] 1000 1000 2 "m").zset =
          zremrangebyscoreLe [("a", 500)] (1000 - 1000) ∧
        (slidingWindowScript [("a", 500)] 1000 1000 2 "m").ttl = none) ∧
      RLAllow [("a", 500)] 2 1000 "m" =
        ⟨(slidingWindowScript [("a", 500)] 1000 1000 2 "m").zset,
         (slidingWindowScript [("a", 500)] 1000 1000 2 "m").ret == 1, true⟩) ∧
    RLAllow [("a", 500)] 0 1000 "m" = ⟨[("a", 500)], true, false⟩ ∧
    (∀ m ∈ zremrangebyscoreLe [("a", 500)] (1000 - 1000),
      1000 - 1000 < m.2) ∧
    (∀ m ∈ ([("a", 500)] : ZSet), 1000 - 1000 < m.2 →
      m ∈ zremrangebyscoreLe [("a", 500)] (1000 - 1000)) :=
  rate_limiter_sliding_window [("a", 500)] 2 1000 "m"

/-- Witness for the half-open transition at the concrete open record. -/
theorem half_open_witness :
    (AllowRequest 30 sampleOpenHash).hash.state = some "half-open" ∧
    (AllowRequest 30 sampleOpenHash).hash.failures =
      sampleOpenHash.failures ∧
    (AllowRequest 30 sampleOpenHash).hash.lastFailedAt =
      sampleOpenHash.lastFailedAt ∧
    (AllowRequest 30 sampleOpenHash).allowed = true ∧
    (AllowRequest 30 sampleOpenHash).stateName = "half-open" :=
  half_open_transition_preserves_counters sampleOpenHash 30 (by decide)
    (by decide)

set_option maxRecDepth 4096 in
/-- Witness for the signature law at a concrete delivered request. -/
theorem signature_witness :
    (buildRequest sampleJob).signatureHeader =
      hexEncode (hmacSha256 (strBytes sampleJob.secretKey)
        sampleJob.payload) ∧
    (buildRequest sampleJob).body = sampleJob.payload ∧
    (∀ c ∈ (buildRequest sampleJob).signatureHeader.data,
      c ∈ "0123456789abcdef".data) ∧
    (∀ job' : DeliveryJob, job'.payload = sampleJob.payload →
      job'.secretKey = sampleJob.secretKey →
      computeHMAC job'.payload job'.secretKey =
        computeHMAC sampleJob.payload sampleJob.secretKey) :=
  sent_signature_is_hmac_sha256 sampleJob CBHash.emptyHash [] 1000 0 0 "m" 0
    (HttpOutcome.response 200 "ok") (buildRequest sampleJob) (by decide)

/-- Witness for the amended matching law at the counterexample rows and
the clean pattern `order.*`. -/
theorem matching_witness :
    (cexSubscriber ∈
        FindMatchingSubscribers [cexSubscriber] [cexSubscription] "b.c" ↔
      cexSubscriber ∈ [cexSubscriber] ∧ cexSubscriber.isActive = true ∧
        ∃ t ∈ [cexSubscription], t.subscriberID = cexSubscriber.id ∧
          t.isActive = true ∧
          sqlMatch t.eventTypePattern.data "b.c".data = true) ∧
    sqlMatch ("order".data ++ ['.', '*']) "order.created".data =
      specMatch ("order".data ++ ['.', '*']) "order.created".data ∧
    (sqlMatch ("order".data ++ ['.', '*']) "order.created".data = true ↔
      "order".data ++ ['.', '*'] = "order.created".data ∨
        ("order".data ++ ['.']) <+: "order.created".data) ∧
    (∀ p : List Char, ¬(['.', '*'] <:+ p) →
      sqlMatch p "order.created".data = specMatch p "order.created".data) ∧
    (∀ e' : List Char, sqlMatch ['*'] e' = true) ∧
    sqlMatch "order.*".data "order.created".data = true ∧
    sqlMatch "order.*".data "payment.created".data = false :=
  find_matching_follows_sql_like [cexSubscriber] [cexSubscription] "b.c"
    cexSubscriber "order".data "order.created".data (by decide) (by decide)

end Webhook
